import Mathlib

/-!
Verification of the `ApplyHistoryBest` autotuning lookup layer
(`src/python/tvm/meta_schedule/apply_history_best.py`).

The Python file is a thin binding: the query engine, the context stack and
the store lookup live behind FFI calls (`_ffi_api.ApplyHistoryBestQuery`,
`ApplyHistoryBestCurrent`, `ApplyHistoryBestEnterScope`,
`ApplyHistoryBestExitScope`, `get_global_func`).  Those parts are modelled
from the specification, as noted on each definition; the logic visible in
the Python source itself (the constructor resolving a string filter
argument through `get_global_func`, `__enter__` returning `self`) is
embedded directly.
-/

/-- An IRModule is an opaque task representation; modelled as a tag. -/
abbrev IRModule := Nat

/-- A Target is an opaque, equality-comparable hardware descriptor. -/
abbrev Target := Nat

/-- A Workload is the canonical signature of a task. -/
abbrev Workload := Nat

/-- Modelled from the spec: the Workload Identity function `canonicalize`
(missing from `src/`, behind the FFI) is a pure, deterministic map from a
task representation to its signature.  Both sides are opaque tags in this
model, so the signature is taken to be the representation itself. -/
def canonicalize (m : IRModule) : Workload := m

/-- A TuningRecord associates a workload, a target, an implementation
variant, a measured cost and a validity flag. -/
structure TuningRecord where
  workload : Workload
  target : Target
  impl : IRModule
  cost : Nat
  valid : Bool
deriving DecidableEq, Repr

/-- The Store is consumed as a collection of tuning records. -/
abbrev Database := List TuningRecord

/-- Whether a record is a valid entry for the key `(w, t)`. -/
def matchesKey (w : Workload) (t : Target) (r : TuningRecord) : Bool :=
  r.valid && (r.workload == w) && (r.target == t)

/-- Modelled from the spec: `Store.get_best(workload, target)` (missing from
`src/`, the Store is an external collaborator) returns the lowest-cost
record marked valid for the key, or none; the deterministic tie-break keeps
the earliest such record. -/
def get_best (db : Database) (w : Workload) (t : Target) : Option TuningRecord :=
  (db.filter (matchesKey w t)).argmin TuningRecord.cost

/-- A candidate lowering: an IRModule together with a flag recording whether
it references externally-defined (opaque) operations. -/
structure Candidate where
  mod : IRModule
  external : Bool
deriving DecidableEq, Repr

/-- The Task Filter Policy: the two built-in variants named in the binding
(`meta_schedule.DefaultTaskFilter`, `meta_schedule.DefaultTaskFilterAllowExtern`)
plus a caller-supplied callable returning an index into the candidate list. -/
inductive FilterPolicy where
  | Default
  | AllowExtern
  | Custom (f : List Candidate → Option Nat)

/-- Modelled from the spec: the filter policy selects at most one eligible
candidate.  The default variant rejects candidates with external operations
and picks the first eligible one in caller-supplied order; the permissive
variant picks the first candidate; a custom policy returns an index. -/
def selectCandidate : FilterPolicy → List Candidate → Option Candidate
  | FilterPolicy.Default, cs => cs.find? (fun c => !c.external)
  | FilterPolicy.AllowExtern, cs => cs.head?
  | FilterPolicy.Custom f, cs => (f cs).bind (fun i => cs[i]?)

/-- The scoped lookup context of `apply_history_best.py`: one database plus
one filter policy.  `ctxId` stands for Python object identity, which the
scope-exit check compares. -/
structure ApplyHistoryBest where
  ctxId : Nat
  database : Database
  te_filter_func : FilterPolicy

instance beqApplyHistoryBest : BEq ApplyHistoryBest :=
  ⟨fun a b => a.ctxId == b.ctxId⟩

theorem beq_ctx_def (a b : ApplyHistoryBest) : (a == b) = (a.ctxId == b.ctxId) := rfl

/-- The global function registry that `get_global_func` consults. -/
abbrev Registry := List (String × FilterPolicy)

/-- Modelled from the spec: `tvm._ffi.get_global_func` (missing from `src/`)
resolves a registered name, or fails when the name is absent. -/
def get_global_func (reg : Registry) (name : String) : Option FilterPolicy :=
  (reg.find? (fun p => p.1 == name)).map (fun p => p.2)

/-- The `te_filter_func` argument of the constructor: a name, an explicit
callable, or `None` (the default filtering function). -/
inductive FilterArg where
  | byName (s : String)
  | byFunc (p : FilterPolicy)
  | absent

inductive ConstructError where
  | InvalidFilterReferenceError
deriving DecidableEq, Repr

/-- Embeds `ApplyHistoryBest.__init__`: a string filter argument is resolved
through `get_global_func` at construction time, before any context object
exists; an unresolved name fails the construction (modelled from the spec:
the unresolved lookup surfaces as `InvalidFilterReferenceError`). -/
def ApplyHistoryBest.new (reg : Registry) (ctxId : Nat) (db : Database) :
    FilterArg → Except ConstructError ApplyHistoryBest
  | FilterArg.byName s =>
    match get_global_func reg s with
    | Option.none => Except.error ConstructError.InvalidFilterReferenceError
    | Option.some p => Except.ok ⟨ctxId, db, p⟩
  | FilterArg.byFunc p => Except.ok ⟨ctxId, db, p⟩
  | FilterArg.absent => Except.ok ⟨ctxId, db, FilterPolicy.Default⟩

/-- The thread-local stack of active contexts, most recently activated first. -/
abbrev CtxStack := List ApplyHistoryBest

inductive ScopeError where
  | ScopeMisuseError
deriving DecidableEq, Repr

/-- Modelled from the spec: `ApplyHistoryBestEnterScope` (missing from
`src/`) pushes the context onto the stack. -/
def enter_scope (ctx : ApplyHistoryBest) (s : CtxStack) : CtxStack := ctx :: s

/-- Modelled from the spec: `ApplyHistoryBest.current` returns the top of
the stack, or none when no context is active. -/
def current (s : CtxStack) : Option ApplyHistoryBest := s.head?

/-- Modelled from the spec: `ApplyHistoryBestExitScope` (missing from
`src/`) pops the top entry; deactivating a context that is not the top
entry (or deactivating on an empty stack) is a `ScopeMisuseError` and the
stack is not changed. -/
def exit_scope (ctx : ApplyHistoryBest) : CtxStack → Except ScopeError CtxStack
  | [] => Except.error ScopeError.ScopeMisuseError
  | top :: rest =>
    if top == ctx then Except.ok rest else Except.error ScopeError.ScopeMisuseError

/-- Embeds `ApplyHistoryBest.__enter__` from the source: it enters the scope
and then returns `self`, the very same instance. -/
def ApplyHistoryBest.enter (ctx : ApplyHistoryBest) (s : CtxStack) :
    ApplyHistoryBest × CtxStack :=
  (ctx, enter_scope ctx s)

inductive QueryError where
  | NoActiveContextError
deriving DecidableEq, Repr

/-- An observer callback (`f_take_tuning_record`) that may fail; a failure
carries a diagnostic message. -/
abbrev Observer := TuningRecord → Except String Unit

/-- The result of the direct-dispatch hook, when it is supplied. -/
def directResult (fd : Option (IRModule → Option IRModule)) (m : IRModule) :
    Option IRModule :=
  match fd with
  | Option.none => Option.none
  | Option.some f => f m

/-- Modelled from the spec: steps 2-7 of the query algorithm once a context
is active and the override has declined: consult the filter policy (no
eligible candidate is a miss), canonicalize, query the store (no record is a
miss); on a hit run the observer first, routing its failure to the
diagnostic sink, and return the record's implementation. -/
def queryMain (ctx : ApplyHistoryBest) (m : IRModule) (target : Target)
    (dispatched : List Candidate) (f_take_tuning_record : Option Observer) :
    Except QueryError (Option IRModule) × List String :=
  match selectCandidate ctx.te_filter_func dispatched with
  | Option.none => (Except.ok Option.none, ["miss: no eligible candidate"])
  | Option.some c =>
    match get_best ctx.database (canonicalize c.mod) target with
    | Option.none => (Except.ok Option.none, ["miss: no tuning record"])
    | Option.some r =>
      match f_take_tuning_record with
      | Option.none => (Except.ok (Option.some r.impl), ["hit"])
      | Option.some f =>
        match f r with
        | Except.ok _ => (Except.ok (Option.some r.impl), ["hit"])
        | Except.error e =>
          (Except.ok (Option.some r.impl), ["observer failure: " ++ e, "hit"])

/-- Modelled from the spec: `ApplyHistoryBestQuery` (missing from `src/`)
requires an active context — querying with an empty stack is
`NoActiveContextError` — then tries the direct-dispatch fast path, then
falls through to filtering and the store lookup.  `task_name` is carried
for diagnostics only.  The second component is the diagnostic sink. -/
def query (s : CtxStack) (task_name : String) (m : IRModule) (target : Target)
    (dispatched : List Candidate) (f_take_tuning_record : Option Observer)
    (f_direct_dispatch : Option (IRModule → Option IRModule)) :
    Except QueryError (Option IRModule) × List String :=
  match current s with
  | Option.none =>
    (Except.error QueryError.NoActiveContextError, [task_name ++ ": no active context"])
  | Option.some ctx =>
    match directResult f_direct_dispatch m with
    | Option.some x => (Except.ok (Option.some x), [task_name ++ ": override"])
    | Option.none => queryMain ctx m target dispatched f_take_tuning_record

/-! ### Helper lemmas -/

theorem get_best_mem_spec (db : Database) (w : Workload) (t : Target)
    (r : TuningRecord) (h : get_best db w t = Option.some r) :
    r ∈ db ∧ r.valid = true ∧ r.workload = w ∧ r.target = t := by
  have hmem : r ∈ (db.filter (matchesKey w t)).argmin TuningRecord.cost := h
  have hr := List.argmin_mem hmem
  rw [List.mem_filter] at hr
  obtain ⟨hdb, hkey⟩ := hr
  simp only [matchesKey, Bool.and_eq_true, beq_iff_eq] at hkey
  exact ⟨hdb, hkey.1.1, hkey.1.2, hkey.2⟩

theorem get_best_min_spec (db : Database) (w : Workload) (t : Target)
    (r : TuningRecord) (h : get_best db w t = Option.some r) :
    ∀ x ∈ db, x.valid = true → x.workload = w → x.target = t →
      r.cost ≤ x.cost := by
  intro x hx hv hw ht
  have hmem : r ∈ (db.filter (matchesKey w t)).argmin TuningRecord.cost := h
  have hxf : x ∈ db.filter (matchesKey w t) := by
    rw [List.mem_filter]
    exact ⟨hx, by simp [matchesKey, hv, hw, ht]⟩
  exact List.le_of_mem_argmin hxf hmem

theorem selectCandidate_nil (p : FilterPolicy) :
    selectCandidate p [] = Option.none := by
  cases p with
  | Default => rfl
  | AllowExtern => rfl
  | Custom f =>
    show (f []).bind (fun i => ([] : List Candidate)[i]?) = Option.none
    cases f [] with
    | none => rfl
    | some i => simp

theorem queryMain_hit (ctx : ApplyHistoryBest) (m : IRModule) (t : Target)
    (disp : List Candidate) (fo : Option Observer) (c : Candidate)
    (r : TuningRecord)
    (hsel : selectCandidate ctx.te_filter_func disp = Option.some c)
    (hget : get_best ctx.database (canonicalize c.mod) t = Option.some r) :
    (queryMain ctx m t disp fo).1 = Except.ok (Option.some r.impl) := by
  simp only [queryMain, hsel, hget]
  cases fo with
  | none => rfl
  | some f => cases hfr : f r <;> simp [hfr]

/-! ### Concrete fixtures used by the witnesses -/

/-- A concrete context: default filter policy over a one-record store whose
record matches workload 3 and target 7 with implementation 99. -/
def ctxDef : ApplyHistoryBest := ⟨0, [⟨3, 7, 99, 1, true⟩], FilterPolicy.Default⟩

def ctxOne : ApplyHistoryBest := ⟨1, [], FilterPolicy.Default⟩

def ctxTwo : ApplyHistoryBest := ⟨2, [], FilterPolicy.Default⟩

/-- A store holding valid records of cost 30, 10 and 20 for one key. -/
def dbBest : Database :=
  [⟨5, 7, 101, 30, true⟩, ⟨5, 7, 102, 10, true⟩, ⟨5, 7, 103, 20, true⟩]

def recBest : TuningRecord := ⟨5, 7, 102, 10, true⟩

/-- The two built-in filter names documented in the binding. -/
def builtinRegistry : Registry :=
  [("meta_schedule.DefaultTaskFilter", FilterPolicy.Default),
   ("meta_schedule.DefaultTaskFilterAllowExtern", FilterPolicy.AllowExtern)]

/-! ### Claims -/

/-- C1: when a context is active and the direct-dispatch hook is supplied
and returns a concrete lowering `x` for the module, `query` returns exactly
`x`, for every database and filter policy — so neither the filter policy
nor the store contents can change the result. -/
theorem query_override_precedence (s : CtxStack) (ctx : ApplyHistoryBest)
    (name : String) (m : IRModule) (t : Target) (disp : List Candidate)
    (fo : Option Observer) (f : IRModule → Option IRModule) (x : IRModule)
    (hcur : current s = Option.some ctx) (hf : f m = Option.some x) :
    (query s name m t disp fo (Option.some f)).1 =
      Except.ok (Option.some x) := by
  simp [query, hcur, directResult, hf]

/-- Witness for C1 at a concrete input: the store holds a matching record
with implementation 99, yet the override result 42 wins. -/
theorem query_override_precedence_witness :
    (query [⟨0, [⟨5, 7, 99, 1, true⟩], FilterPolicy.Default⟩] "task" 5 7
        [⟨5, false⟩] Option.none (Option.some (fun _ => Option.some 42))).1 =
      Except.ok (Option.some 42) :=
  query_override_precedence _ _ "task" 5 7 _ _ _ 42 rfl rfl

/-- C2: the context stack is LIFO: after activating c1 then c2, `current`
returns c2; deactivating c2 restores c1 as current; deactivating c1 while
c2 is the top entry is a `ScopeMisuseError` (no new stack is produced, so
nothing is reordered); and `current` of the empty stack is none. -/
theorem context_stack_lifo (c1 c2 : ApplyHistoryBest)
    (hne : c1.ctxId ≠ c2.ctxId) :
    current (enter_scope c2 (enter_scope c1 [])) = Option.some c2 ∧
    exit_scope c2 (enter_scope c2 (enter_scope c1 [])) =
      Except.ok (enter_scope c1 []) ∧
    current (enter_scope c1 []) = Option.some c1 ∧
    exit_scope c1 (enter_scope c2 (enter_scope c1 [])) =
      Except.error ScopeError.ScopeMisuseError ∧
    current ([] : CtxStack) = Option.none := by
  refine ⟨rfl, ?_, rfl, ?_, rfl⟩
  · simp [exit_scope, enter_scope, beq_ctx_def]
  · simp [exit_scope, enter_scope, beq_ctx_def, Ne.symm hne]

/-- Witness for C2 with two distinct concrete contexts. -/
theorem context_stack_lifo_witness :
    ctxOne.ctxId ≠ ctxTwo.ctxId ∧
    (current (enter_scope ctxTwo (enter_scope ctxOne [])) = Option.some ctxTwo ∧
     exit_scope ctxTwo (enter_scope ctxTwo (enter_scope ctxOne [])) =
       Except.ok (enter_scope ctxOne []) ∧
     current (enter_scope ctxOne []) = Option.some ctxOne ∧
     exit_scope ctxOne (enter_scope ctxTwo (enter_scope ctxOne [])) =
       Except.error ScopeError.ScopeMisuseError ∧
     current ([] : CtxStack) = Option.none) :=
  ⟨by decide, context_stack_lifo ctxOne ctxTwo (by decide)⟩

/-- C3: when a context is active, the override declines, and the active
filter policy yields no eligible candidate, `query` returns none — a miss,
not an error. -/
theorem query_miss_on_empty_eligibility (s : CtxStack) (ctx : ApplyHistoryBest)
    (name : String) (m : IRModule) (t : Target) (disp : List Candidate)
    (fo : Option Observer) (fd : Option (IRModule → Option IRModule))
    (hcur : current s = Option.some ctx)
    (hfd : directResult fd m = Option.none)
    (hsel : selectCandidate ctx.te_filter_func disp = Option.none) :
    (query s name m t disp fo fd).1 = Except.ok Option.none := by
  simp [query, hcur, hfd, queryMain, hsel]

/-- Witness for C3: the default policy rejects the only candidate, which
references external operations, and the query is a plain miss. -/
theorem query_miss_on_empty_eligibility_witness :
    current [ctxDef] = Option.some ctxDef ∧
    directResult Option.none 3 = Option.none ∧
    selectCandidate ctxDef.te_filter_func [⟨3, true⟩] = Option.none ∧
    (query [ctxDef] "task" 3 7 [⟨3, true⟩] Option.none Option.none).1 =
      Except.ok Option.none :=
  ⟨rfl, rfl, rfl, query_miss_on_empty_eligibility [ctxDef] ctxDef "task" 3 7
    [⟨3, true⟩] Option.none Option.none rfl rfl rfl⟩

/-- C4: a query on the empty context stack is a `NoActiveContextError`, not
a miss, whatever the other arguments are. -/
theorem query_no_active_context (name : String) (m : IRModule) (t : Target)
    (disp : List Candidate) (fo : Option Observer)
    (fd : Option (IRModule → Option IRModule)) :
    (query [] name m t disp fo fd).1 =
      Except.error QueryError.NoActiveContextError := rfl

/-- C5: a record returned by a store query for key (w, t) is in the store,
marked valid, carries that exact key, and has minimal cost among the valid
records for the key; invalid records are never returned. -/
theorem get_best_valid_minimal (db : Database) (w : Workload) (t : Target)
    (r : TuningRecord) (h : get_best db w t = Option.some r) :
    r ∈ db ∧ r.valid = true ∧ r.workload = w ∧ r.target = t ∧
      ∀ x ∈ db, x.valid = true → x.workload = w → x.target = t →
        r.cost ≤ x.cost := by
  obtain ⟨h1, h2, h3, h4⟩ := get_best_mem_spec db w t r h
  exact ⟨h1, h2, h3, h4, get_best_min_spec db w t r h⟩

/-- Witness for C5: for valid records of cost 30, 10, 20 under one key, the
hit is the record of cost 10. -/
theorem get_best_valid_minimal_witness :
    get_best dbBest 5 7 = Option.some recBest ∧
    (recBest ∈ dbBest ∧ recBest.valid = true ∧ recBest.workload = 5 ∧
      recBest.target = 7 ∧
      ∀ x ∈ dbBest, x.valid = true → x.workload = 5 → x.target = 7 →
        recBest.cost ≤ x.cost) :=
  ⟨by decide, get_best_valid_minimal dbBest 5 7 recBest (by decide)⟩

/-- C6: on a hit, the query result is the record's implementation for every
observer callback, failing or not: an observer failure neither changes the
returned lowering nor escapes the query boundary (the result stays
`Except.ok` of the materialized implementation). -/
theorem query_observer_non_interference (s : CtxStack) (ctx : ApplyHistoryBest)
    (name : String) (m : IRModule) (t : Target) (disp : List Candidate)
    (fd : Option (IRModule → Option IRModule)) (fo : Option Observer)
    (c : Candidate) (r : TuningRecord)
    (hcur : current s = Option.some ctx)
    (hfd : directResult fd m = Option.none)
    (hsel : selectCandidate ctx.te_filter_func disp = Option.some c)
    (hget : get_best ctx.database (canonicalize c.mod) t = Option.some r) :
    (query s name m t disp fo fd).1 = Except.ok (Option.some r.impl) := by
  simp only [query, hcur, hfd]
  exact queryMain_hit ctx m t disp fo c r hsel hget

/-- Witness for C6: an always-failing observer on a concrete hit, which
still returns implementation 99. -/
theorem query_observer_non_interference_witness :
    current [ctxDef] = Option.some ctxDef ∧
    directResult Option.none 3 = Option.none ∧
    selectCandidate ctxDef.te_filter_func [⟨3, false⟩] = Option.some ⟨3, false⟩ ∧
    get_best ctxDef.database (canonicalize 3) 7 = Option.some ⟨3, 7, 99, 1, true⟩ ∧
    (query [ctxDef] "task" 3 7 [⟨3, false⟩]
        (Option.some (fun _ => Except.error "observer failed")) Option.none).1 =
      Except.ok (Option.some 99) :=
  ⟨rfl, rfl, rfl, by decide, query_observer_non_interference [ctxDef] ctxDef "task"
    3 7 [⟨3, false⟩] Option.none
    (Option.some (fun _ => Except.error "observer failed"))
    ⟨3, false⟩ ⟨3, 7, 99, 1, true⟩ rfl rfl rfl (by decide)⟩

/-- C7: with a context active, an empty candidate list and no
direct-dispatch hook, `query` returns none — a miss, not an error — under
every filter policy. -/
theorem query_empty_candidates_miss (s : CtxStack) (ctx : ApplyHistoryBest)
    (name : String) (m : IRModule) (t : Target) (fo : Option Observer)
    (hcur : current s = Option.some ctx) :
    (query s name m t [] fo Option.none).1 = Except.ok Option.none := by
  simp [query, hcur, directResult, queryMain, selectCandidate_nil]

/-- Witness for C7 at a concrete context. -/
theorem query_empty_candidates_miss_witness :
    current [ctxDef] = Option.some ctxDef ∧
    (query [ctxDef] "task" 3 7 [] Option.none Option.none).1 =
      Except.ok Option.none :=
  ⟨rfl, query_empty_candidates_miss [ctxDef] ctxDef "task" 3 7 Option.none rfl⟩

/-- C8: the constructor resolves a named filter policy at construction time:
an unresolved name fails immediately with `InvalidFilterReferenceError`, so
no context object is produced, while a resolvable name yields a context
carrying the resolved policy. -/
theorem new_resolves_filter_name (reg : Registry) (i : Nat) (db : Database)
    (s : String) :
    (get_global_func reg s = Option.none →
      ApplyHistoryBest.new reg i db (FilterArg.byName s) =
        Except.error ConstructError.InvalidFilterReferenceError) ∧
    (∀ p, get_global_func reg s = Option.some p →
      ApplyHistoryBest.new reg i db (FilterArg.byName s) =
        Except.ok ⟨i, db, p⟩) := by
  constructor
  · intro h
    simp [ApplyHistoryBest.new, h]
  · intro p h
    simp [ApplyHistoryBest.new, h]

/-- Witness for C8: an unregistered name fails construction; a built-in
name resolves to its policy. -/
theorem new_resolves_filter_name_witness :
    ApplyHistoryBest.new builtinRegistry 0 [] (FilterArg.byName "no.such.filter") =
      Except.error ConstructError.InvalidFilterReferenceError ∧
    ApplyHistoryBest.new builtinRegistry 0 []
        (FilterArg.byName "meta_schedule.DefaultTaskFilter") =
      Except.ok ⟨0, [], FilterPolicy.Default⟩ :=
  ⟨(new_resolves_filter_name builtinRegistry 0 [] "no.such.filter").1 (by rfl),
   (new_resolves_filter_name builtinRegistry 0 [] "meta_schedule.DefaultTaskFilter").2
     FilterPolicy.Default (by rfl)⟩

/-- C9: target discrimination: when the override declines and `query` with
target `t` returns a lowering from the store, that lowering comes from a
valid record of the store whose target is exactly `t` — never from a record
measured only under a different target. -/
theorem query_target_discrimination (s : CtxStack) (ctx : ApplyHistoryBest)
    (name : String) (m : IRModule) (t : Target) (disp : List Candidate)
    (fo : Option Observer) (fd : Option (IRModule → Option IRModule))
    (x : IRModule)
    (hcur : current s = Option.some ctx)
    (hfd : directResult fd m = Option.none)
    (hres : (query s name m t disp fo fd).1 = Except.ok (Option.some x)) :
    ∃ r ∈ ctx.database, r.valid = true ∧ r.target = t ∧ r.impl = x := by
  simp only [query, hcur, hfd] at hres
  cases hsel : selectCandidate ctx.te_filter_func disp with
  | none => simp [queryMain, hsel] at hres
  | some c =>
    cases hget : get_best ctx.database (canonicalize c.mod) t with
    | none => simp [queryMain, hsel, hget] at hres
    | some r =>
      rw [queryMain_hit ctx m t disp fo c r hsel hget] at hres
      simp only [Except.ok.injEq, Option.some.injEq] at hres
      obtain ⟨h1, h2, h3, h4⟩ :=
        get_best_mem_spec ctx.database (canonicalize c.mod) t r hget
      exact ⟨r, h1, h2, h4, hres⟩

/-- Witness for C9: a concrete hit under target 7 traces back to a valid
record of the store measured under target 7. -/
theorem query_target_discrimination_witness :
    (query [ctxDef] "task" 3 7 [⟨3, false⟩] Option.none Option.none).1 =
      Except.ok (Option.some 99) ∧
    ∃ r ∈ ctxDef.database, r.valid = true ∧ r.target = 7 ∧ r.impl = 99 :=
  ⟨rfl, query_target_discrimination [ctxDef] ctxDef "task" 3 7 [⟨3, false⟩]
    Option.none Option.none 99 rfl rfl rfl⟩

/-- C10: `__enter__` returns the very instance it was invoked on, and
`current` then reports that same instance as the active context. -/
theorem enter_returns_self (ctx : ApplyHistoryBest) (s : CtxStack) :
    (ApplyHistoryBest.enter ctx s).1 = ctx ∧
    current (ApplyHistoryBest.enter ctx s).2 = Option.some ctx :=
  ⟨rfl, rfl⟩
